import Mathlib

/-!
Verification of the Anamnesis extraction-and-retrieval pipeline.

The definitions below are a shallow embedding of the Python sources:
`app/intake/summarizer.py`, `app/rag/indexer.py`, `app/rag/retriever.py`,
`app/rag/qa.py` and `app/rag/embeddings.py`.  Floating-point vector
components are modelled as integers (machine floats are scaled dyadic
rationals, and a common scaling preserves the ordering of coordinates and
of squared distances), and the pgvector Euclidean distance
`embedding <-> query` by the squared Euclidean distance — a strictly
monotone transform of it, so ordering by it coincides with ordering by the
true distance.  Database tables are modelled as ordered lists of
rows; the language-model call of each component is an explicit parameter.
-/

namespace Anamnesis

/-- One conversation turn (an `Utterance` row): `speaker` is `"patient"` or
`"assistant"`; transcripts are lists already in `(ts, id)` order, matching
`_load_utterances_for_encounter`'s `ORDER BY ts, id`. -/
structure Utt where
  speaker : String
  text : String
deriving DecidableEq, Repr

/-- Python `str.strip()`: drop leading and trailing whitespace.  Modelled
directly on the string's character list so that it evaluates by `decide`. -/
def pyStrip (s : String) : String :=
  ⟨((s.data.dropWhile Char.isWhitespace).reverse.dropWhile Char.isWhitespace).reverse⟩

/-- Python truthiness of an optional string (`if x:`): `None` and `""` are
falsy, every non-empty string is truthy. -/
def pyTruthy : Option String → Bool
  | none => false
  | some s => !s.isEmpty

/-- Source `app/intake/schema.py` `Symptom`: optional free-text attributes default to
`None` and the two list fields default to empty. -/
structure Symptom where
  name : String
  onset : Option String := none
  duration : Option String := none
  location : Option String := none
  character : Option String := none
  severity : Option String := none
  aggravating_factors : Option String := none
  relieving_factors : Option String := none
  associated_symptoms : List String := []
  red_flags : List String := []
deriving DecidableEq, Repr

/-- Source `app/intake/schema.py` `Medication`. -/
structure Medication where
  name : String
  dose : Option String := none
  frequency : Option String := none
  route : Option String := none
  indication : Option String := none
deriving DecidableEq, Repr

/-- Source `app/intake/schema.py` `Allergy`. -/
structure Allergy where
  substance : String
  reaction : Option String := none
  severity : Option String := none
deriving DecidableEq, Repr

/-- Source `app/intake/schema.py` `StructuredIntakeModel`: the normalized structured
record for one encounter. -/
structure StructuredIntakeModel where
  chief_complaint : Option String := none
  symptoms : List Symptom := []
  medications : List Medication := []
  allergies : List Allergy := []
  past_medical_history : List String := []
  family_history : List String := []
  social_history : List String := []
  red_flags : List String := []
  patient_goals : Option String := none
  other_notes : Option String := none
deriving DecidableEq, Repr

/-- The relational-store slice the summarizer touches: the set of existing
encounter ids, the utterances table as `(encounter_id, utterance)` rows already
in `(ts, id)` order, and the `structured_intake` table keyed by encounter id. -/
structure Db where
  encounters : List String
  utterances : List (String × Utt)
  intake : List (String × StructuredIntakeModel)
deriving DecidableEq, Repr

/-- Function `_load_utterances_for_encounter`: the encounter's utterances in stored
order. -/
def _load_utterances_for_encounter (db : Db) (encounter_id : String) : List Utt :=
  (db.utterances.filter (fun p => p.1 == encounter_id)).map (fun p => p.2)

/-- Function `_extract_chief_complaint`: the first patient utterance's text, stripped;
`None` when no patient utterance exists. -/
def _extract_chief_complaint : List Utt → Option String
  | [] => none
  | u :: rest =>
      if u.speaker == "patient" then some (pyStrip u.text)
      else _extract_chief_complaint rest

/-- Function `_extract_patient_goals`: loop over all utterances keeping the last
patient utterance's stripped text. -/
def _extract_patient_goals (utts : List Utt) : Option String :=
  utts.foldl (fun acc u => if u.speaker == "patient" then some (pyStrip u.text) else acc) none

/-- Function `_extract_symptoms`: one generic placeholder symptom when the chief
complaint is truthy (`if not cc: return []`), else empty. -/
def _extract_symptoms (utts : List Utt) : List Symptom :=
  if pyTruthy (_extract_chief_complaint utts) then
    [{ name := "reported symptom" }]
  else []

/-- Function `_extract_medications`: placeholder, always empty. -/
def _extract_medications (_utts : List Utt) : List Medication := []

/-- Function `_extract_allergies`: placeholder, always empty. -/
def _extract_allergies (_utts : List Utt) : List Allergy := []

/-- The `session.get(StructuredIntake, encounter_id)` lookup followed by update-or-add:
replace the first row with that key if present (the key is a primary key, so
at most one row exists), else insert a new row. -/
def upsertIntake : List (String × StructuredIntakeModel) → String → StructuredIntakeModel →
    List (String × StructuredIntakeModel)
  | [], eid, m => [(eid, m)]
  | p :: rest, eid, m =>
      if p.1 == eid then (eid, m) :: rest else p :: upsertIntake rest eid m

/-- Function `build_structured_intake_for_encounter`: the heuristic baseline.  Raises
(`.error`) when the encounter does not exist; otherwise builds the record from
the heuristics, upserts it into `structured_intake` and returns it. -/
def build_structured_intake_for_encounter (db : Db) (encounter_id : String) :
    Except String (StructuredIntakeModel × Db) :=
  if encounter_id ∈ db.encounters then
    let utterances := _load_utterances_for_encounter db encounter_id
    let intake_model : StructuredIntakeModel :=
      { chief_complaint := _extract_chief_complaint utterances
        symptoms := _extract_symptoms utterances
        medications := _extract_medications utterances
        allergies := _extract_allergies utterances
        past_medical_history := []
        family_history := []
        social_history := []
        red_flags := []
        patient_goals := _extract_patient_goals utterances
        other_notes := none }
    .ok (intake_model, { db with intake := upsertIntake db.intake encounter_id intake_model })
  else
    .error ("Encounter " ++ encounter_id ++ " not found")

/-- Function `build_structured_intake_with_llm`.  The model-assisted stage
(`llm_client.chat`, `_clean_json_from_llm`, `StructuredIntakeModel.model_validate`)
is abstracted into the `llm` parameter: `some m` when call, JSON parse and
schema validation all succeed with record `m`; `none` for any stage-1 failure
(call error, non-JSON response, schema mismatch).  The `except Exception`
handler catches both stage-1 failures and the encounter-not-found `ValueError`
and runs the heuristic fallback; an exception raised by the fallback itself is
not caught and propagates. -/
def build_structured_intake_with_llm (db : Db) (encounter_id : String)
    (llm : Option StructuredIntakeModel) : Except String (StructuredIntakeModel × Db) :=
  if encounter_id ∈ db.encounters then
    match llm with
    | some intake_model =>
        .ok (intake_model, { db with intake := upsertIntake db.intake encounter_id intake_model })
    | none => build_structured_intake_for_encounter db encounter_id
  else
    build_structured_intake_for_encounter db encounter_id

/-! ## Chunker (`app/rag/indexer.py`) -/

/-- One optional `parts` entry guarded by Python truthiness (`if s.onset: ...`). -/
def optPart (label : String) : Option String → List String
  | none => []
  | some s => if s.isEmpty then [] else [label ++ s]

/-- The `"; ".join(parts)` string built for one symptom in
`_build_chunks_from_structured` (note: `aggravating_factors`, `relieving_factors`
are not rendered by the source). -/
def symptomStr (s : Symptom) : String :=
  String.intercalate "; "
    (["name: " ++ s.name]
      ++ optPart "onset: " s.onset
      ++ optPart "duration: " s.duration
      ++ optPart "location: " s.location
      ++ optPart "character: " s.character
      ++ optPart "severity: " s.severity
      ++ (if s.associated_symptoms.isEmpty then []
          else ["associated: " ++ String.intercalate ", " s.associated_symptoms])
      ++ (if s.red_flags.isEmpty then []
          else ["red_flags: " ++ String.intercalate ", " s.red_flags]))

/-- The `", ".join(parts)` string built for one medication (route and
indication are not rendered by the source). -/
def medStr (m : Medication) : String :=
  String.intercalate ", "
    ([m.name] ++ (match m.dose with
                  | none => []
                  | some d => if d.isEmpty then [] else [d])
      ++ (match m.frequency with
          | none => []
          | some f => if f.isEmpty then [] else [f]))

/-- The `", ".join(parts)` string built for one allergy (severity is not
rendered by the source). -/
def allergyStr (a : Allergy) : String :=
  String.intercalate ", "
    ([a.substance] ++ optPart "reaction: " a.reaction)

/-- Function `_build_chunks_from_structured`: one `("structured", text)` chunk per
populated field group, in source order; the sequential `chunks.append` calls
under truthiness guards are rendered as a concatenation of conditional
singletons. -/
def _build_chunks_from_structured : Option StructuredIntakeModel → List (String × String)
  | none => []
  | some s =>
      (if pyTruthy s.chief_complaint then
        [("structured", "Chief complaint: " ++ s.chief_complaint.getD "")] else [])
      ++ (if s.symptoms.isEmpty then [] else
        [("structured", "Symptoms: " ++ String.intercalate " | " (s.symptoms.map symptomStr))])
      ++ (if s.medications.isEmpty then [] else
        [("structured", "Medications: " ++ String.intercalate "; " (s.medications.map medStr))])
      ++ (if s.allergies.isEmpty then [] else
        [("structured", "Allergies: " ++ String.intercalate "; " (s.allergies.map allergyStr))])
      ++ (if s.past_medical_history.isEmpty then [] else
        [("structured", "Past medical history: " ++ String.intercalate "; " s.past_medical_history)])
      ++ (if s.family_history.isEmpty then [] else
        [("structured", "Family history: " ++ String.intercalate "; " s.family_history)])
      ++ (if s.social_history.isEmpty then [] else
        [("structured", "Social history: " ++ String.intercalate "; " s.social_history)])
      ++ (if s.red_flags.isEmpty then [] else
        [("structured", "Red flags: " ++ String.intercalate "; " s.red_flags)])
      ++ (if pyTruthy s.patient_goals then
        [("structured", "Patient goals: " ++ s.patient_goals.getD "")] else [])
      ++ (if pyTruthy s.other_notes then
        [("structured", "Other notes: " ++ s.other_notes.getD "")] else [])

/-- The loop body of `_build_chunks_from_utterances`: `current_question` is the
running `current_question` variable (set by every assistant turn, tested with
Python truthiness when a patient turn is emitted, and never reset). -/
def qasAux : Option String → List Utt → List String
  | _, [] => []
  | current_question, u :: rest =>
      if u.speaker == "assistant" then qasAux (some u.text) rest
      else if pyTruthy current_question then
        ("Q: " ++ current_question.getD "" ++ " A: " ++ u.text) :: qasAux current_question rest
      else
        ("A: " ++ u.text) :: qasAux current_question rest

/-- Function `_build_chunks_from_utterances`: one `utterance` chunk concatenating all
QA fragments, or no chunk when there are none. -/
def _build_chunks_from_utterances (utts : List Utt) : List (String × String) :=
  let qas := qasAux none utts
  if qas.isEmpty then []
  else [("utterance", "Conversation QA pairs: " ++ String.intercalate " | " qas)]

/-! ## Retriever (`app/rag/retriever.py`) -/

/-- A row of the `patient_chunks` table. -/
structure ChunkRow where
  id : Nat
  patient_id : String
  encounter_id : Option String
  source_type : String
  text : String
  embedding : List Int
deriving DecidableEq, Repr

/-- Source `app/rag/retriever.py` `RetrievedChunk`. -/
structure RetrievedChunk where
  id : Nat
  encounter_id : Option String
  source_type : String
  text : String
  score : Int
deriving DecidableEq, Repr

/-- Squared Euclidean distance, the order-equivalent model of pgvector's
`embedding <-> query`. -/
def dist2 (a b : List Int) : Int :=
  ((a.zip b).map (fun p => (p.1 - p.2) * (p.1 - p.2))).sum

/-- The row-to-result projection performed on each fetched row (`score` is the
computed distance). -/
def toRetrieved (queryEmb : List Int) (r : ChunkRow) : RetrievedChunk :=
  { id := r.id
    encounter_id := r.encounter_id
    source_type := r.source_type
    text := r.text
    score := dist2 r.embedding queryEmb }

/-- Function `retrieve_patient_chunks`, with the embedding of the query text passed in
directly: the semantics of
`SELECT ... WHERE patient_id = :patient_id ORDER BY embedding <-> :q LIMIT :k`
— filter the table by `patient_id`, sort the survivors by distance to the
query (a stable sort; SQL leaves tie order unspecified), and keep the first
`k`. -/
def retrieve_patient_chunks (store : List ChunkRow) (patient_id : String)
    (queryEmb : List Int) (k : Nat) : List RetrievedChunk :=
  let filtered := store.filter (fun r => r.patient_id == patient_id)
  let sorted := List.insertionSort
    (fun r s => dist2 r.embedding queryEmb ≤ dist2 s.embedding queryEmb) filtered
  (sorted.take k).map (toRetrieved queryEmb)

/-! ## QA (`app/rag/qa.py`) -/

/-- A chat message for the language-model call interface. -/
structure Message where
  role : String
  content : String
deriving DecidableEq, Repr

/-- Python rendering of an optional string inside an f-string (`None` prints
as `None`). -/
def optStr : Option String → String
  | none => "None"
  | some s => s

/-- Function `_build_context`: one line per chunk with a 1-based bracketed citation. -/
def _build_context (chunks : List RetrievedChunk) : String :=
  String.intercalate "\n"
    (chunks.enum.map (fun p =>
      "[chunk " ++ toString (p.1 + 1) ++ ", encounter=" ++ optStr p.2.encounter_id
        ++ ", source=" ++ p.2.source_type ++ "] " ++ p.2.text))

/-- The system instruction of `answer_doctor_question`. -/
def qaSystemMessage : String :=
  "You are an AI assistant helping a doctor review a single patient's history. "
    ++ "You are given context snippets from this patient's intake conversations and structured notes.\n\n"
    ++ "RULES:\n"
    ++ "- Answer ONLY using the provided context.\n"
    ++ "- If the answer is not clearly supported by the context, say you don't know.\n"
    ++ "- Keep answers short and direct (1–2 sentences).\n"
    ++ "- When possible, mention which chunks support your answer using [chunk N]. "
    ++ "Do not quote messy or confusing raw text verbatim; just summarise it."

/-- Function `answer_doctor_question`.  `embed` is the embedding client applied to one
text, `llm` is `llm_client.chat`.  The third component of the result counts how
many language-model calls were made (0 or 1), so that the short-circuit on
empty retrieval is observable. -/
def answer_doctor_question (store : List ChunkRow) (embed : String → List Int)
    (llm : List Message → String) (patient_id : String) (question : String)
    (k : Nat := 5) : String × List RetrievedChunk × Nat :=
  let chunks := retrieve_patient_chunks store patient_id (embed question) k
  if chunks.isEmpty then
    ("I couldn't find any information about that in this patient's records.", [], 0)
  else
    let context := _build_context chunks
    let messages : List Message :=
      [ { role := "system", content := qaSystemMessage },
        { role := "user",
          content := "Doctor's question: " ++ question
            ++ "\n\nHere are context snippets from this patient's records:\n" ++ context
            ++ "\n\nBased only on this context, answer the doctor's question. "
            ++ "If you cannot answer from these snippets, say so clearly." } ]
    (llm messages, chunks, 1)

/-! ## Embeddings (`app/rag/embeddings.py`) -/

/-- Structure `EmbeddingClient`: `enc` is the deterministic per-text output of
`SentenceTransformer.encode` (already normalized), `dim` the configured
`settings.embedding_dim`. -/
structure EmbeddingClient where
  enc : String → List Int
  dim : Nat

/-- Method `EmbeddingClient.embed`: empty input short-circuits to `np.zeros((0, dim))`,
i.e. an empty vector list; otherwise encode every text and raise (`.error`)
when the stacked matrix's row width (`embeddings.shape[1]`, the width of the
first row of the rectangular result) differs from the configured dimension. -/
def EmbeddingClient.embed (c : EmbeddingClient) : List String → Except String (List (List Int))
  | [] => .ok []
  | t :: ts =>
      let embeddings := (t :: ts).map c.enc
      if (c.enc t).length ≠ c.dim then
        .error ("Embedding dimension mismatch: expected " ++ toString c.dim
          ++ ", got " ++ toString (c.enc t).length)
      else
        .ok embeddings

/-! ## Statement-level helper definitions -/

/-- The record built by the heuristic baseline for an encounter (the
`intake_model` local of `build_structured_intake_for_encounter`). -/
def heuristicModel (db : Db) (eid : String) : StructuredIntakeModel :=
  { chief_complaint := _extract_chief_complaint (_load_utterances_for_encounter db eid)
    symptoms := _extract_symptoms (_load_utterances_for_encounter db eid)
    medications := _extract_medications (_load_utterances_for_encounter db eid)
    allergies := _extract_allergies (_load_utterances_for_encounter db eid)
    past_medical_history := []
    family_history := []
    social_history := []
    red_flags := []
    patient_goals := _extract_patient_goals (_load_utterances_for_encounter db eid)
    other_notes := none }

/-- Number of populated field groups of a structured record, with the same
truthiness tests the chunker applies. -/
def populatedGroups (s : StructuredIntakeModel) : Nat :=
  (if pyTruthy s.chief_complaint then 1 else 0)
    + (if s.symptoms.isEmpty then 0 else 1)
    + (if s.medications.isEmpty then 0 else 1)
    + (if s.allergies.isEmpty then 0 else 1)
    + (if s.past_medical_history.isEmpty then 0 else 1)
    + (if s.family_history.isEmpty then 0 else 1)
    + (if s.social_history.isEmpty then 0 else 1)
    + (if s.red_flags.isEmpty then 0 else 1)
    + (if pyTruthy s.patient_goals then 1 else 0)
    + (if pyTruthy s.other_notes then 1 else 0)

/-- The question in force for a patient turn: the text of the most recent
assistant turn in the preceding transcript portion, if any. -/
def lastQuestionOf (pre : List Utt) : Option String :=
  (pre.reverse.find? (fun u => u.speaker == "assistant")).map (fun u => u.text)

/-- One QA fragment: quotes the question when it is present and non-empty,
otherwise an answer-only fragment. -/
def qaFragment (q : Option String) (answer : String) : String :=
  match q with
  | none => "A: " ++ answer
  | some s => if s.isEmpty then "A: " ++ answer else "Q: " ++ s ++ " A: " ++ answer

/-- Declarative characterization of the QA-fragment list: walk the transcript
keeping the already-processed portion `pre`; each patient turn contributes a
fragment quoting the most recent assistant turn of `pre`. -/
def qaSpecAux (pre : List Utt) : List Utt → List String
  | [] => []
  | u :: rest =>
      if u.speaker == "assistant" then qaSpecAux (pre ++ [u]) rest
      else qaFragment (lastQuestionOf pre) u.text :: qaSpecAux (pre ++ [u]) rest

/-- The QA fragments of a transcript, each patient turn paired with the most
recent preceding assistant turn. -/
def qaFragmentsOf (utts : List Utt) : List String := qaSpecAux [] utts

/-- The question–answer pairing exactly as the spec words it: each assistant
turn is paired with the next patient turn that follows it, and a patient turn
with no preceding assistant turn is emitted as an answer-only fragment
(pairs first, answer-only fragments after, each kind in transcript order). -/
def spec_qa_pairs (utts : List Utt) : List String :=
  (utts.enum.filterMap (fun p =>
    if p.2.speaker == "assistant" then
      (utts.enum.find? (fun q => decide (p.1 < q.1) && q.2.speaker == "patient")).map
        (fun q => "Q: " ++ p.2.text ++ " A: " ++ q.2.text)
    else none))
  ++ (utts.enum.filterMap (fun p =>
    if p.2.speaker == "patient"
        && !(utts.enum.any (fun q => decide (q.1 < p.1) && q.2.speaker == "assistant")) then
      some ("A: " ++ p.2.text)
    else none))

/-- The utterance chunking as the spec words it: the spec-side pairing rule,
then a single `utterance` chunk when any fragment exists. -/
def spec_build_chunks_from_utterances (utts : List Utt) : List (String × String) :=
  let qas := spec_qa_pairs utts
  if qas.isEmpty then []
  else [("utterance", "Conversation QA pairs: " ++ String.intercalate " | " qas)]

/-- The spec's running example: one assistant question followed by one patient
answer, with the model-assisted stage failing. -/
def exampleDb : Db :=
  ⟨["e1"], [("e1", ⟨"assistant", "What brings you in?"⟩),
            ("e1", ⟨"patient", "I have had a cough for two weeks"⟩)], []⟩

/-- The record the heuristic fallback produces on `exampleDb`. -/
def exampleModel : StructuredIntakeModel :=
  { chief_complaint := some "I have had a cough for two weeks"
    symptoms := [{ name := "reported symptom" }]
    patient_goals := some "I have had a cough for two weeks" }

/-- A store whose `structured_intake` table already holds a record for the
encounter being re-extracted and one for another encounter. -/
def upsertDb : Db :=
  ⟨["e1"], [("e1", ⟨"patient", "hi"⟩)],
    [("e1", {}), ("e2", { chief_complaint := some "x" })]⟩

/-- The record the heuristic fallback produces on `upsertDb`'s encounter. -/
def upsertModel : StructuredIntakeModel :=
  { chief_complaint := some "hi"
    symptoms := [{ name := "reported symptom" }]
    patient_goals := some "hi" }

/-- A store whose only encounter has a single whitespace-only patient turn. -/
def wsDb : Db := ⟨["e1"], [("e1", ⟨"patient", " "⟩)], []⟩

/-- The record the heuristic fallback produces on `wsDb`'s encounter. -/
def wsModel : StructuredIntakeModel :=
  { chief_complaint := some "", symptoms := [], patient_goals := some "" }

/-- An embedding client whose model natively produces one-component vectors,
matching the configured dimension 1. -/
def oneDimClient : EmbeddingClient := ⟨fun _ => [(0 : Int)], 1⟩

/-! ## Theorems -/

/-- Length of a conditionally emitted singleton chunk. -/
theorem length_ite_singleton {α : Type} (c : Prop) [Decidable c] (x : α) :
    (if c then [x] else []).length = if c then 1 else 0 := by
  split <;> rfl

/-- Length of a conditionally suppressed singleton chunk. -/
theorem length_ite_singleton_not {α : Type} (c : Prop) [Decidable c] (x : α) :
    (if c then [] else [x]).length = if c then 0 else 1 := by
  split <;> rfl

/-- C1: Tenant isolation of retrieval — every chunk returned by
`retrieve_patient_chunks` for patient `pid` is the projection of a stored row
whose `patient_id` equals `pid`; no other patient's chunk is ever returned,
the `patient_id` filter being applied before ranking. -/
theorem c1_tenant_isolation (store : List ChunkRow) (pid : String) (q : List Int)
    (k : Nat) (c : RetrievedChunk) (hc : c ∈ retrieve_patient_chunks store pid q k) :
    ∃ r ∈ store, r.patient_id = pid ∧ c = toRetrieved q r := by
  unfold retrieve_patient_chunks at hc
  simp only [List.mem_map] at hc
  obtain ⟨r, hr, rfl⟩ := hc
  have hr1 : r ∈ List.insertionSort
      (fun r s => dist2 r.embedding q ≤ dist2 s.embedding q)
      (store.filter (fun r => r.patient_id == pid)) := List.mem_of_mem_take hr
  have hr2 : r ∈ store.filter (fun r => r.patient_id == pid) :=
    ((List.perm_insertionSort _ _).mem_iff).1 hr1
  rw [List.mem_filter] at hr2
  exact ⟨r, hr2.1, by simpa using hr2.2, rfl⟩

/-- Witness for C1 on a two-patient store. -/
theorem c1_tenant_isolation_witness :
    ∃ r ∈ [({ id := 1, patient_id := "p1", encounter_id := none, source_type := "structured",
              text := "t1", embedding := [0] } : ChunkRow),
            { id := 2, patient_id := "p2", encounter_id := none, source_type := "structured",
              text := "t2", embedding := [1] }],
      r.patient_id = "p1" ∧
        ({ id := 1, encounter_id := none, source_type := "structured", text := "t1",
           score := 0 } : RetrievedChunk) = toRetrieved [0] r :=
  c1_tenant_isolation _ "p1" [0] 5 _ (by decide)

/-- C5: Bounded, sorted retrieval — `retrieve_patient_chunks` returns at most
`k` results, ordered by non-decreasing distance score. -/
theorem c5_bounded_sorted (store : List ChunkRow) (pid : String) (q : List Int)
    (k : Nat) :
    (retrieve_patient_chunks store pid q k).length ≤ k ∧
    (retrieve_patient_chunks store pid q k).Sorted (fun a b => a.score ≤ b.score) := by
  constructor
  · unfold retrieve_patient_chunks
    simp [List.length_take]
  · unfold retrieve_patient_chunks
    rw [List.Sorted, List.pairwise_map]
    have hrel : (fun a b : ChunkRow =>
        (toRetrieved q a).score ≤ (toRetrieved q b).score)
        = fun r s => dist2 r.embedding q ≤ dist2 s.embedding q := rfl
    rw [hrel]
    refine List.Pairwise.sublist (List.take_sublist _ _) ?_
    haveI : IsTotal ChunkRow (fun r s => dist2 r.embedding q ≤ dist2 s.embedding q) :=
      ⟨fun _ _ => le_total _ _⟩
    haveI : IsTrans ChunkRow (fun r s => dist2 r.embedding q ≤ dist2 s.embedding q) :=
      ⟨fun _ _ _ hab hbc => le_trans hab hbc⟩
    exact List.sorted_insertionSort _ _

/-- C3 counterexample: with zero retrievable chunks `answer_doctor_question`
does return a canned answer, an empty chunk list and zero language-model
calls, but the canned string is
"I couldn't find any information about that in this patient's records.", not
"no information found for this patient". -/
theorem c3_counterexample :
    answer_doctor_question [] (fun _ => [(0 : Int)]) (fun _ => "llm output") "p1" "q" 5
        = ("I couldn't find any information about that in this patient's records.", [], 0)
      ∧ "I couldn't find any information about that in this patient's records."
        ≠ "no information found for this patient" :=
  ⟨rfl, by decide⟩

/-- C3 amended: whenever retrieval yields zero chunks, `answer_doctor_question`
returns the fixed canned string
"I couldn't find any information about that in this patient's records."
together with an empty chunk list, and performs zero language-model calls. -/
theorem c3_empty_retrieval (store : List ChunkRow) (embed : String → List Int)
    (llm : List Message → String) (pid question : String) (k : Nat)
    (h : retrieve_patient_chunks store pid (embed question) k = []) :
    answer_doctor_question store embed llm pid question k
      = ("I couldn't find any information about that in this patient's records.", [], 0) := by
  unfold answer_doctor_question
  rw [h]
  rfl

/-- Witness for C3 amended on an empty store. -/
theorem c3_empty_retrieval_witness :
    retrieve_patient_chunks [] "p1" [(0 : Int)] 5 = [] ∧
    answer_doctor_question [] (fun _ => [(0 : Int)]) (fun _ => "llm output") "p1" "q" 5
      = ("I couldn't find any information about that in this patient's records.", [], 0) :=
  ⟨by decide, c3_empty_retrieval [] (fun _ => [(0 : Int)]) (fun _ => "llm output") "p1" "q" 5
    (by decide)⟩

/-- The chief-complaint loop is `find?` over the transcript: the first
patient turn, stripped. -/
theorem extract_cc_eq_find (utts : List Utt) :
    _extract_chief_complaint utts
      = (utts.find? (fun u => u.speaker == "patient")).map (fun u => pyStrip u.text) := by
  induction utts with
  | nil => rfl
  | cons u rest ih =>
      cases h : u.speaker == "patient" <;>
        simp [_extract_chief_complaint, List.find?_cons, h, ih]

/-- Generalized form of the patient-goals loop: a left fold over the
transcript starting from `acc` keeps the last patient turn, stripped, and
falls back to `acc` when there is none. -/
theorem foldl_goals_eq (utts : List Utt) : ∀ acc : Option String,
    utts.foldl (fun acc u => if u.speaker == "patient" then some (pyStrip u.text) else acc) acc
      = ((utts.reverse.find? (fun u => u.speaker == "patient")).map
          (fun u => pyStrip u.text)).or acc := by
  induction utts with
  | nil => intro acc; rfl
  | cons u rest ih =>
      intro acc
      rw [List.foldl_cons, ih, List.reverse_cons, List.find?_append]
      cases h : u.speaker == "patient" <;>
        cases hA : rest.reverse.find? (fun u => u.speaker == "patient") <;>
          simp [h, hA, List.find?_cons, Option.or]

/-- The patient-goals loop returns the last patient turn's stripped text. -/
theorem extract_goals_eq (utts : List Utt) :
    _extract_patient_goals utts
      = (utts.reverse.find? (fun u => u.speaker == "patient")).map
          (fun u => pyStrip u.text) := by
  unfold _extract_patient_goals
  rw [foldl_goals_eq]
  cases (utts.reverse.find? (fun u => u.speaker == "patient")).map
      (fun u => pyStrip u.text) <;> rfl

/-- The heuristic builder, fully evaluated: not-found error when the
encounter does not exist, otherwise the heuristic record and the upsert. -/
theorem build_for_encounter_eq (db : Db) (eid : String) :
    build_structured_intake_for_encounter db eid
      = if eid ∈ db.encounters then
          .ok (heuristicModel db eid,
            { db with intake := upsertIntake db.intake eid (heuristicModel db eid) })
        else .error ("Encounter " ++ eid ++ " not found") := rfl

/-- C2 counterexample: for a missing encounter the model-assisted builder's
exception handler runs the heuristic fallback, which raises not-found again,
so the extraction does raise instead of returning a record. -/
theorem c2_counterexample :
    build_structured_intake_with_llm ⟨[], [], []⟩ "e1" none
      = .error "Encounter e1 not found" := rfl

/-- C2 amended: for every encounter that exists, both the model-assisted
builder (under every outcome of the model stage) and the heuristic fallback
return a structured record and never raise; encounter-not-found, however, is
not recovered by the fallback. -/
theorem c2_extraction_total (db : Db) (eid : String) (llm : Option StructuredIntakeModel)
    (h : eid ∈ db.encounters) :
    (∃ m db', build_structured_intake_with_llm db eid llm = .ok (m, db')) ∧
    (∃ m db', build_structured_intake_for_encounter db eid = .ok (m, db')) := by
  have hf : ∃ m db', build_structured_intake_for_encounter db eid = .ok (m, db') :=
    ⟨_, _, by rw [build_for_encounter_eq, if_pos h]⟩
  refine ⟨?_, hf⟩
  unfold build_structured_intake_with_llm
  rw [if_pos h]
  cases llm with
  | some m => exact ⟨m, _, rfl⟩
  | none => exact hf

/-- Witness for C2 amended on a one-encounter store with failing model stage. -/
theorem c2_extraction_total_witness :
    "e1" ∈ (⟨["e1"], [], []⟩ : Db).encounters ∧
      ((∃ m db', build_structured_intake_with_llm ⟨["e1"], [], []⟩ "e1" none = .ok (m, db')) ∧
       (∃ m db', build_structured_intake_for_encounter ⟨["e1"], [], []⟩ "e1" = .ok (m, db'))) :=
  ⟨by decide, c2_extraction_total ⟨["e1"], [], []⟩ "e1" none (by decide)⟩

/-- C4 counterexample: the heuristic fallback strips surrounding whitespace,
so the chief complaint is not the raw text of the first patient turn. -/
theorem c4_counterexample :
    (build_structured_intake_for_encounter
        ⟨["e1"], [("e1", ⟨"patient", "  cough  "⟩)], []⟩ "e1").toOption.map
        (fun p => p.1.chief_complaint) = some (some "cough")
      ∧ ("cough" : String) ≠ "  cough  " :=
  ⟨rfl, by decide⟩

/-- C4 amended: any record produced by the heuristic fallback has
chief_complaint = stripped text of the first patient turn (null if none),
patient_goals = stripped text of the last patient turn (null if none), a
single placeholder symptom exactly when the stripped chief complaint is
non-null and non-empty, and empty medications, allergies, histories and red
flags, with null other_notes. -/
theorem c4_fallback_content (db : Db) (eid : String) (m : StructuredIntakeModel)
    (db' : Db) (h : build_structured_intake_for_encounter db eid = .ok (m, db')) :
    m.chief_complaint
        = ((_load_utterances_for_encounter db eid).find?
            (fun u => u.speaker == "patient")).map (fun u => pyStrip u.text) ∧
    m.patient_goals
        = ((_load_utterances_for_encounter db eid).reverse.find?
            (fun u => u.speaker == "patient")).map (fun u => pyStrip u.text) ∧
    m.symptoms
        = (if pyTruthy m.chief_complaint then [{ name := "reported symptom" }] else []) ∧
    m.medications = [] ∧ m.allergies = [] ∧ m.past_medical_history = [] ∧
    m.family_history = [] ∧ m.social_history = [] ∧ m.red_flags = [] ∧
    m.other_notes = none := by
  rw [build_for_encounter_eq] at h
  split_ifs at h with hmem
  · simp only [Except.ok.injEq, Prod.mk.injEq] at h
    obtain ⟨hm, _⟩ := h
    subst hm
    refine ⟨extract_cc_eq_find _, extract_goals_eq _, ?_, rfl, rfl, rfl, rfl, rfl, rfl, rfl⟩
    simp [heuristicModel, _extract_symptoms]

/-- Witness for C4 amended on the spec's cough example. -/
theorem c4_fallback_content_witness :
    build_structured_intake_for_encounter exampleDb "e1"
        = .ok (exampleModel, { exampleDb with intake := [("e1", exampleModel)] }) ∧
    exampleModel.chief_complaint = some "I have had a cough for two weeks" ∧
    exampleModel.patient_goals = some "I have had a cough for two weeks" ∧
    exampleModel.symptoms = [{ name := "reported symptom" }] ∧
    exampleModel.medications = [] ∧ exampleModel.allergies = [] := by
  have h : build_structured_intake_for_encounter exampleDb "e1"
      = .ok (exampleModel, { exampleDb with intake := [("e1", exampleModel)] }) := rfl
  have hc := c4_fallback_content exampleDb "e1" exampleModel
    { exampleDb with intake := [("e1", exampleModel)] } h
  refine ⟨h, ?_, ?_, ?_, hc.2.2.2.1, hc.2.2.2.2.1⟩
  · rw [hc.1]; rfl
  · rw [hc.2.1]; rfl
  · rw [hc.2.2.1]; rfl

/-- Upserting a key into a table with pairwise-distinct keys leaves exactly
the new row under that key. -/
theorem upsertIntake_filter_self (tbl : List (String × StructuredIntakeModel))
    (eid : String) (m : StructuredIntakeModel) (h : (tbl.map Prod.fst).Nodup) :
    (upsertIntake tbl eid m).filter (fun p => p.1 == eid) = [(eid, m)] := by
  induction tbl with
  | nil => simp [upsertIntake]
  | cons p rest ih =>
      rw [List.map_cons, List.nodup_cons] at h
      by_cases hp : p.1 = eid
      · have hnil : rest.filter (fun q => q.1 == eid) = [] := by
          rw [List.filter_eq_nil_iff]
          intro a ha hae
          exact h.1 (hp ▸ (beq_iff_eq.mp hae) ▸ List.mem_map_of_mem Prod.fst ha)
        simp [upsertIntake, hp, List.filter, hnil]
      · have hp' : (p.1 == eid) = false := beq_eq_false_iff_ne.mpr hp
        simp [upsertIntake, hp', List.filter, ih h.2]

/-- Upserting one key does not change the rows filed under any other key. -/
theorem upsertIntake_filter_other (tbl : List (String × StructuredIntakeModel))
    (eid : String) (m : StructuredIntakeModel) (e : String) (he : e ≠ eid) :
    (upsertIntake tbl eid m).filter (fun p => p.1 == e)
      = tbl.filter (fun p => p.1 == e) := by
  induction tbl with
  | nil => simp [upsertIntake, List.filter, beq_eq_false_iff_ne.mpr (Ne.symm he)]
  | cons p rest ih =>
      by_cases hp : p.1 = eid
      · have hpe : (p.1 == e) = false := beq_eq_false_iff_ne.mpr (hp ▸ (Ne.symm he))
        simp [upsertIntake, hp, List.filter, hpe,
          beq_eq_false_iff_ne.mpr (Ne.symm he)]
      · have hp' : (p.1 == eid) = false := beq_eq_false_iff_ne.mpr hp
        simp only [upsertIntake, hp', Bool.false_eq_true, if_false, List.filter]
        rw [ih]

/-- Both extraction paths, when they return, leave
`structured_intake = upsertIntake` of the prior table with the returned
record. -/
theorem extraction_ok_intake (db : Db) (eid : String)
    (llm : Option StructuredIntakeModel) (m : StructuredIntakeModel) (db' : Db)
    (h : build_structured_intake_with_llm db eid llm = .ok (m, db')
       ∨ build_structured_intake_for_encounter db eid = .ok (m, db')) :
    db'.intake = upsertIntake db.intake eid m := by
  have hfor : ∀ (m' : StructuredIntakeModel) (db'' : Db),
      build_structured_intake_for_encounter db eid = .ok (m', db'') →
      db''.intake = upsertIntake db.intake eid m' := by
    intro m' db'' h'
    rw [build_for_encounter_eq] at h'
    split_ifs at h' with hmem
    simp only [Except.ok.injEq, Prod.mk.injEq] at h'
    obtain ⟨hm, hdb⟩ := h'
    rw [← hdb, ← hm]
  rcases h with h | h
  · unfold build_structured_intake_with_llm at h
    by_cases hmem : eid ∈ db.encounters
    · rw [if_pos hmem] at h
      cases llm with
      | some m0 =>
          simp only [Except.ok.injEq, Prod.mk.injEq] at h
          obtain ⟨hm, hdb⟩ := h
          rw [← hdb, ← hm]
      | none => exact hfor _ _ h
    · rw [if_neg hmem] at h
      exact hfor _ _ h
  · exact hfor _ _ h

/-- C8: Upsert uniqueness — after any extraction (model-assisted or
heuristic) returning a record for encounter `eid` over a table with unique
keys, exactly the new record is filed under `eid`, and the rows of any other
encounter `e` are unchanged. -/
theorem c8_upsert_unique (db : Db) (eid : String)
    (llm : Option StructuredIntakeModel) (m : StructuredIntakeModel) (db' : Db)
    (e : String) (hkeys : (db.intake.map Prod.fst).Nodup)
    (h : build_structured_intake_with_llm db eid llm = .ok (m, db')
       ∨ build_structured_intake_for_encounter db eid = .ok (m, db'))
    (he : e ≠ eid) :
    db'.intake.filter (fun p => p.1 == eid) = [(eid, m)] ∧
    db'.intake.filter (fun p => p.1 == e) = db.intake.filter (fun p => p.1 == e) := by
  rw [extraction_ok_intake db eid llm m db' h]
  exact ⟨upsertIntake_filter_self _ _ _ hkeys, upsertIntake_filter_other _ _ _ _ he⟩

/-- Witness for C8: re-extracting `"e1"` replaces its prior record and leaves
`"e2"`'s untouched. -/
theorem c8_upsert_unique_witness :
    (upsertDb.intake.map Prod.fst).Nodup ∧ ("e2" : String) ≠ "e1" ∧
    ((⟨["e1"], [("e1", ⟨"patient", "hi"⟩)],
        [("e1", upsertModel), ("e2", { chief_complaint := some "x" })]⟩ : Db).intake.filter
        (fun p => p.1 == "e1") = [("e1", upsertModel)] ∧
      (⟨["e1"], [("e1", ⟨"patient", "hi"⟩)],
        [("e1", upsertModel), ("e2", { chief_complaint := some "x" })]⟩ : Db).intake.filter
        (fun p => p.1 == "e2") = upsertDb.intake.filter (fun p => p.1 == "e2")) :=
  ⟨by decide, by decide,
    c8_upsert_unique upsertDb "e1" none upsertModel
      ⟨["e1"], [("e1", ⟨"patient", "hi"⟩)],
        [("e1", upsertModel), ("e2", { chief_complaint := some "x" })]⟩
      "e2" (by decide) (Or.inr rfl) (by decide)⟩

/-- C10: Whitespace edge case — when the first patient turn's text is
whitespace-only, the fallback sets chief_complaint to the empty string (not
null), emits no placeholder symptom, and the chunker emits no chief-complaint
chunk for the record: its only possible chunk is the patient-goals one. -/
theorem c10_whitespace_chief_complaint (db : Db) (eid : String)
    (m : StructuredIntakeModel) (db' : Db) (u : Utt)
    (h : build_structured_intake_for_encounter db eid = .ok (m, db'))
    (hfirst : (_load_utterances_for_encounter db eid).find?
        (fun v => v.speaker == "patient") = some u)
    (hws : pyStrip u.text = "") :
    m.chief_complaint = some "" ∧ m.symptoms = [] ∧
    _build_chunks_from_structured (some m)
      = (if pyTruthy m.patient_goals then
          [("structured", "Patient goals: " ++ m.patient_goals.getD "")] else []) := by
  rw [build_for_encounter_eq] at h
  split_ifs at h with hmem
  simp only [Except.ok.injEq, Prod.mk.injEq] at h
  obtain ⟨hm, _⟩ := h
  subst hm
  have hcc : (heuristicModel db eid).chief_complaint = some "" := by
    show _extract_chief_complaint (_load_utterances_for_encounter db eid) = some ""
    rw [extract_cc_eq_find, hfirst]
    simp [hws]
  have hsym : (heuristicModel db eid).symptoms = [] := by
    show _extract_symptoms (_load_utterances_for_encounter db eid) = []
    unfold _extract_symptoms
    rw [show _extract_chief_complaint (_load_utterances_for_encounter db eid) = some ""
      from hcc]
    rfl
  refine ⟨hcc, hsym, ?_⟩
  show _build_chunks_from_structured (some (heuristicModel db eid)) = _
  simp only [_build_chunks_from_structured]
  rw [hcc, hsym]
  simp [heuristicModel, _extract_medications, _extract_allergies, pyTruthy,
    show ("" : String).isEmpty = true from rfl]

/-- Witness for C10 on a one-turn whitespace-only transcript. -/
theorem c10_whitespace_chief_complaint_witness :
    wsModel.chief_complaint = some "" ∧ wsModel.symptoms = [] ∧
    _build_chunks_from_structured (some wsModel)
      = (if pyTruthy wsModel.patient_goals then
          [("structured", "Patient goals: " ++ wsModel.patient_goals.getD "")] else []) :=
  c10_whitespace_chief_complaint wsDb "e1" wsModel
    { wsDb with intake := [("e1", wsModel)] } ⟨"patient", " "⟩ rfl rfl rfl

/-- C6: Structured chunking by field group — every record yields exactly one
chunk per populated field group and none for null/empty fields (the chunk
count equals the number of populated groups), a missing record yields no
chunks, a record with only `chief_complaint` set yields exactly the one
chief-complaint chunk (none when the string is empty), symptom attributes are
joined with "; " and symptoms with " | ", and history lists are joined with
"; ". -/
theorem c6_structured_chunking :
    (∀ s : StructuredIntakeModel,
        (_build_chunks_from_structured (some s)).length = populatedGroups s) ∧
    _build_chunks_from_structured none = [] ∧
    (∀ c : String, _build_chunks_from_structured (some { chief_complaint := some c })
        = if c.isEmpty then [] else [("structured", "Chief complaint: " ++ c)]) ∧
    _build_chunks_from_structured
        (some { symptoms := [{ name := "cough", onset := some "3 weeks ago" },
                             { name := "fever" }] })
      = [("structured", "Symptoms: name: cough; onset: 3 weeks ago | name: fever")] ∧
    _build_chunks_from_structured
        (some { past_medical_history := ["asthma", "eczema"] })
      = [("structured", "Past medical history: asthma; eczema")] := by
  refine ⟨?_, rfl, ?_, rfl, rfl⟩
  · intro s
    simp only [_build_chunks_from_structured, List.length_append,
      length_ite_singleton, length_ite_singleton_not, populatedGroups]
  · intro c
    cases hc : c.isEmpty <;>
      simp [_build_chunks_from_structured, pyTruthy, hc]

/-- Appending one turn updates the question in force exactly when the turn is
an assistant turn. -/
theorem lastQuestionOf_append (pre : List Utt) (u : Utt) :
    lastQuestionOf (pre ++ [u])
      = if u.speaker == "assistant" then some u.text else lastQuestionOf pre := by
  unfold lastQuestionOf
  rw [List.reverse_append]
  cases h : u.speaker == "assistant" <;> simp [h, List.find?_cons]

/-- The chunker's stateful loop equals the declarative prefix-based
characterization: the running `current_question` is always the most recent
assistant turn of the processed prefix. -/
theorem qasAux_eq_spec : ∀ (rest pre : List Utt),
    qasAux (lastQuestionOf pre) rest = qaSpecAux pre rest := by
  intro rest
  induction rest with
  | nil => intro pre; rfl
  | cons u rest ih =>
      intro pre
      have htail := ih (pre ++ [u])
      rw [lastQuestionOf_append] at htail
      cases h : u.speaker == "assistant"
      · rw [h] at htail
        simp only [Bool.false_eq_true, if_false] at htail
        simp only [qasAux, qaSpecAux, h, Bool.false_eq_true, if_false, htail]
        cases hq : lastQuestionOf pre with
        | none => simp [pyTruthy, qaFragment]
        | some s => cases hs : s.isEmpty <;> simp [pyTruthy, qaFragment, hs]
      · rw [h] at htail
        simp only [if_true] at htail
        simp only [qasAux, qaSpecAux, h, if_true]
        exact htail

/-- The QA-fragment walk yields nothing exactly when every turn is
assistant-authored. -/
theorem qaSpecAux_eq_nil_iff : ∀ (rest pre : List Utt),
    qaSpecAux pre rest = [] ↔ ∀ u ∈ rest, u.speaker = "assistant" := by
  intro rest
  induction rest with
  | nil => intro pre; simp [qaSpecAux]
  | cons u rest ih =>
      intro pre
      cases h : u.speaker == "assistant"
      · simp only [qaSpecAux, h, Bool.false_eq_true, if_false]
        constructor
        · intro hc; exact absurd hc (List.cons_ne_nil _ _)
        · intro hall
          exact absurd (hall u (List.mem_cons_self u rest)) (by simpa using h)
      · simp only [qaSpecAux, h, if_true]
        rw [ih (pre ++ [u])]
        constructor
        · intro hall v hv
          rcases List.mem_cons.mp hv with rfl | hv'
          · exact beq_iff_eq.mp h
          · exact hall v hv'
        · intro hall v hv
          exact hall v (List.mem_cons_of_mem _ hv)

/-- C7 counterexample: with two consecutive assistant turns before one patient
turn, the code pairs only the second (most recent) question with the answer,
while the spec's rule — each assistant turn paired with the next patient turn
that follows it — would produce a pair for both questions. -/
theorem c7_counterexample :
    _build_chunks_from_utterances
        [⟨"assistant", "q1"⟩, ⟨"assistant", "q2"⟩, ⟨"patient", "a"⟩]
      = [("utterance", "Conversation QA pairs: Q: q2 A: a")] ∧
    spec_build_chunks_from_utterances
        [⟨"assistant", "q1"⟩, ⟨"assistant", "q2"⟩, ⟨"patient", "a"⟩]
      = [("utterance", "Conversation QA pairs: Q: q1 A: a | Q: q2 A: a")] :=
  ⟨rfl, rfl⟩

/-- C7 amended: the chunker pairs each patient turn with the most recent
preceding assistant turn (answer-only when there is none or its text is
empty), concatenates all fragments into exactly one `utterance` chunk, and
emits zero chunks exactly when the transcript has no patient-authored turns. -/
theorem c7_utterance_chunking (utts : List Utt) :
    _build_chunks_from_utterances utts
      = (if (qaFragmentsOf utts).isEmpty then []
         else [("utterance",
            "Conversation QA pairs: " ++ String.intercalate " | " (qaFragmentsOf utts))]) ∧
    (_build_chunks_from_utterances utts = [] ↔ ∀ u ∈ utts, u.speaker = "assistant") := by
  have hq : qasAux none utts = qaFragmentsOf utts := by
    have := qasAux_eq_spec utts []
    simpa [qaFragmentsOf, lastQuestionOf] using this
  constructor
  · unfold _build_chunks_from_utterances
    rw [hq]
  · unfold _build_chunks_from_utterances
    rw [hq, ← qaSpecAux_eq_nil_iff utts []]
    show (if (qaFragmentsOf utts).isEmpty then _ else _) = [] ↔ qaFragmentsOf utts = []
    cases hie : (qaFragmentsOf utts).isEmpty
    · simp_all [List.isEmpty_eq_false_iff_exists_mem]
    · simp_all [List.isEmpty_iff]

/-- Witness for C7 amended on the two-question transcript. -/
theorem c7_utterance_chunking_witness :
    (_build_chunks_from_utterances
        [⟨"assistant", "q1"⟩, ⟨"assistant", "q2"⟩, ⟨"patient", "a"⟩]
      = (if (qaFragmentsOf
              [⟨"assistant", "q1"⟩, ⟨"assistant", "q2"⟩, ⟨"patient", "a"⟩]).isEmpty then []
         else [("utterance", "Conversation QA pairs: " ++ String.intercalate " | "
            (qaFragmentsOf
              [⟨"assistant", "q1"⟩, ⟨"assistant", "q2"⟩, ⟨"patient", "a"⟩]))])) ∧
    (_build_chunks_from_utterances
        [⟨"assistant", "q1"⟩, ⟨"assistant", "q2"⟩, ⟨"patient", "a"⟩] = []
      ↔ ∀ u ∈ [(⟨"assistant", "q1"⟩ : Utt), ⟨"assistant", "q2"⟩, ⟨"patient", "a"⟩],
          u.speaker = "assistant") :=
  c7_utterance_chunking [⟨"assistant", "q1"⟩, ⟨"assistant", "q2"⟩, ⟨"patient", "a"⟩]

/-- Evaluation of `embed` on a non-empty input: the dimension check against
the model's native row width, then one vector per text. -/
theorem embed_cons_eq (c : EmbeddingClient) (t : String) (ts : List String) :
    c.embed (t :: ts)
      = if (c.enc t).length ≠ c.dim then
          .error ("Embedding dimension mismatch: expected " ++ toString c.dim
            ++ ", got " ++ toString (c.enc t).length)
        else .ok ((t :: ts).map c.enc) := rfl

/-- C9: Embedding contract — empty input yields an empty output (not an
error); for non-empty input, when the model's native width `nd` equals the
configured dimension the call returns one vector per input text in order, and
when it differs the call fails with the dimension-mismatch error. -/
theorem c9_embed_contract (c : EmbeddingClient) (nd : Nat)
    (hconst : ∀ t, (c.enc t).length = nd) (texts : List String) :
    (texts = [] → c.embed texts = .ok []) ∧
    (texts ≠ [] →
      (nd = c.dim →
        c.embed texts = .ok (texts.map c.enc)
          ∧ (texts.map c.enc).length = texts.length) ∧
      (nd ≠ c.dim → ∃ msg, c.embed texts = .error msg)) := by
  cases texts with
  | nil => exact ⟨fun _ => rfl, fun hne => absurd rfl hne⟩
  | cons t ts =>
      refine ⟨fun hc => List.noConfusion hc,
        fun _ => ⟨fun hdim => ⟨?_, by simp⟩, fun hdim => ?_⟩⟩
      · rw [embed_cons_eq, if_neg (fun hx => hx ((hconst t).trans hdim))]
      · exact ⟨_, by rw [embed_cons_eq, if_pos ((hconst t).symm ▸ hdim)]⟩

/-- Witness for C9 with a one-dimensional client on a singleton input. -/
theorem c9_embed_contract_witness :
    ((["hello"] : List String) = [] → oneDimClient.embed ["hello"] = .ok []) ∧
    ((["hello"] : List String) ≠ [] →
      (1 = oneDimClient.dim →
        oneDimClient.embed ["hello"] = .ok (["hello"].map oneDimClient.enc)
          ∧ (["hello"].map oneDimClient.enc).length = (["hello"] : List String).length) ∧
      (1 ≠ oneDimClient.dim → ∃ msg, oneDimClient.embed ["hello"] = .error msg)) :=
  c9_embed_contract oneDimClient 1 (fun _ => rfl) ["hello"]

end Anamnesis
